import Mathlib

/-!
Verification of the Flask web application in `src/app/main.py`.

The application consists of one rendering function `page(message)`, which
substitutes `message` for the single `{0}` placeholder of a fixed HTML
template via `str.format`, and one route handler `get_page`, registered on
the root path `/`, which returns `page` applied to a hardcoded welcome
message.  Flask wraps a string returned by a handler in an HTTP response
with status 200.

The embedding below follows the source.  Python's `"…{0}…".format(m)`
with a single positional placeholder and a string argument inserts `m`
verbatim (format fields are parsed only in the template, never in the
argument), so `page` is the concatenation of the template text before the
placeholder, the message, and the template text after the placeholder.
-/

/-- Text of the template literal in `page` (src/app/main.py lines 23-32)
before the `{0}` placeholder, byte for byte: the literal opens with a
newline and the indentation of the Python source. -/
def htmlPre : String :=
  "\n        <html>\n        <head lang> \n            <meta charset=\"utf-8\">\n            <title>Index</title>\n        </head>\n        <body>\n            <div style=\x27font-size:60px;\x27>\n            <center>\n                "

/-- Text of the template literal in `page` after the `{0}` placeholder,
byte for byte: the line-break element `<br>` and the closing tags. -/
def htmlPost : String :=
  "<br>\n            </center>\n            </div>\n        </body>\n        </html>"

/-- Embedding of `page(message)` from src/app/main.py: the template with
`message` substituted verbatim at the single `{0}` placeholder. -/
def page (message : String) : String :=
  htmlPre ++ message ++ htmlPost

/-- The hardcoded message of the route handler `get_page`. -/
def welcomeMessage : String :=
  "Hello CGI!!! Welcome to the world of DevOps :)"

/-- Embedding of the body of the route handler `get_page`
(src/app/main.py lines 39-48): it returns `page` applied to the
hardcoded message and consults nothing else. -/
def get_page : String :=
  page welcomeMessage

/-- An incoming HTTP request as seen by the application: method, path and
headers.  The handler in the source takes no request data at all; the
fields exist so that independence from the request can be stated. -/
structure Request where
  method : String
  path : String
  headers : List (String × String)

/-- An HTTP response: status code and body. -/
structure HttpResponse where
  status : Nat
  body : String

/-- The module-level application object of src/app/main.py: a Flask app
whose routing table holds the rules registered with `@app.route`.  The
source registers exactly one rule, the root path. -/
structure AppState where
  routes : List String

/-- The `app` object constructed at module load: one registered rule, `/`,
bound to `get_page`. -/
def app : AppState :=
  { routes := ["/"] }

/-- Flask request dispatch for this application: a GET request whose path
matches a registered rule is answered by the handler of that rule -- here
the only rule is `/`, whose handler `get_page` returns a string that Flask
wraps in a response with status 200.  A request matching no rule falls to
the framework default (not-found / method-not-allowed), which is outside
the application logic and modelled as `none`. -/
def dispatch (s : AppState) (req : Request) : Option HttpResponse :=
  if req.method = "GET" ∧ req.path ∈ s.routes then
    some { status := 200, body := get_page }
  else
    none

/-- Handling one request against the application as loaded from the
module. -/
def handleRequest (req : Request) : Option HttpResponse :=
  dispatch app req

/-- One request-response cycle of the server: the response is produced by
dispatch, and the application state is returned as the handler leaves it.
`get_page` reads and writes no module state, so the state after the call
is the state before it. -/
def serverStep (s : AppState) (req : Request) : AppState × Option HttpResponse :=
  (s, dispatch s req)

/-- Sequential processing of a list of requests, threading the application
state through every request-response cycle. -/
def serveAll (s : AppState) : List Request → AppState × List (Option HttpResponse)
  | [] => (s, [])
  | r :: rs =>
      ((serveAll (serverStep s r).1 rs).1,
        (serverStep s r).2 :: (serveAll (serverStep s r).1 rs).2)

/-! Helper lemmas shared by the claim theorems. -/

theorem data_page (M : String) :
    (page M).data = htmlPre.data ++ (M.data ++ htmlPost.data) := by
  simp [page, String.data_append]

set_option maxRecDepth 8000 in
theorem data_htmlPre_cons : htmlPre.data = '\n' :: htmlPre.data.tail := by
  decide

theorem data_page_cons (M : String) :
    (page M).data = '\n' :: (htmlPre.data.tail ++ (M.data ++ htmlPost.data)) := by
  rw [data_page, data_htmlPre_cons]
  simp

theorem serveAll_fst (s : AppState) (reqs : List Request) :
    (serveAll s reqs).1 = s := by
  induction reqs generalizing s with
  | nil => rfl
  | cons r rs ih => simp [serveAll, serverStep, ih]

theorem serveAll_snoc (s : AppState) (reqs : List Request) (r : Request) :
    (serveAll s (reqs ++ [r])).2 = (serveAll s reqs).2 ++ [(serverStep s r).2] := by
  induction reqs generalizing s with
  | nil => simp [serveAll]
  | cons r' rs ih => simp [serveAll, serverStep, ih]

/-! The claims. -/

/-- C1: every GET request to the root path `/` is answered, the response
body is byte-identical to `page` applied to the fixed literal message
"Hello CGI!!! Welcome to the world of DevOps :)", and this holds whatever
the headers of the request are -- the message never depends on the
request. -/
theorem C1_root_body_is_rendered_welcome (req : Request)
    (hm : req.method = "GET") (hp : req.path = "/") :
    ∃ resp : HttpResponse, handleRequest req = some resp ∧
      resp.body = page "Hello CGI!!! Welcome to the world of DevOps :)" := by
  refine ⟨{ status := 200, body := get_page }, ?_, rfl⟩
  simp [handleRequest, dispatch, app, hm, hp]

/-- Witness for C1 at the concrete request `GET /` with no headers. -/
theorem C1_root_body_is_rendered_welcome_witness :
    ∃ resp : HttpResponse,
      handleRequest { method := "GET", path := "/", headers := [] } = some resp ∧
      resp.body = page "Hello CGI!!! Welcome to the world of DevOps :)" :=
  C1_root_body_is_rendered_welcome { method := "GET", path := "/", headers := [] } rfl rfl

set_option maxRecDepth 8000 in
/-- C2: for every message `M`, `page M` is the fixed skeleton
`htmlPre ++ M ++ htmlPost`, with `M` substituted at exactly that one
point and immediately followed by the line-break element `<br>`; the
skeleton contains the opening `html`, `head` and `body` tags and their
closings, no doctype declaration, the UTF-8 charset meta tag, the title
"Index", a `center` element and a `div` with the fixed font size 60px. -/
theorem C2_fixed_skeleton (M : String) :
    page M = htmlPre ++ M ++ htmlPost ∧
    "<br>".data <+: htmlPost.data ∧
    "<html>".data <:+: htmlPre.data ∧
    "<head".data <:+: htmlPre.data ∧
    "<body>".data <:+: htmlPre.data ∧
    "</body>".data <:+: htmlPost.data ∧
    "</html>".data <:+: htmlPost.data ∧
    "<meta charset=\"utf-8\">".data <:+: htmlPre.data ∧
    "<title>Index</title>".data <:+: htmlPre.data ∧
    "<center>".data <:+: htmlPre.data ∧
    "<div style=\x27font-size:60px;\x27>".data <:+: htmlPre.data ∧
    ¬ "<!".data <:+: htmlPre.data ∧
    ¬ "<!".data <:+: htmlPost.data :=
  ⟨rfl, by decide, by decide, by decide, by decide, by decide, by decide,
    by decide, by decide, by decide, by decide, by decide, by decide⟩

/-- C3: the root-path endpoint has no failure branch: every GET request to
`/` is answered with status 200, and no response other than one with
status 200 is ever produced for it. -/
theorem C3_root_always_200 (req : Request)
    (hm : req.method = "GET") (hp : req.path = "/") :
    handleRequest req = some { status := 200, body := get_page } ∧
    ∀ resp : HttpResponse, handleRequest req = some resp → resp.status = 200 := by
  have h : handleRequest req = some { status := 200, body := get_page } := by
    simp [handleRequest, dispatch, app, hm, hp]
  refine ⟨h, ?_⟩
  intro resp hr
  rw [h] at hr
  cases hr
  rfl

/-- Witness for C3 at the concrete request `GET /` with no headers. -/
theorem C3_root_always_200_witness :
    handleRequest { method := "GET", path := "/", headers := [] } =
      some { status := 200, body := get_page } ∧
    ∀ resp : HttpResponse,
      handleRequest { method := "GET", path := "/", headers := [] } = some resp →
      resp.status = 200 :=
  C3_root_always_200 { method := "GET", path := "/", headers := [] } rfl rfl

/-- C4: for every message `M`, `page M` contains `M` verbatim as a
substring -- no escaping, sanitization or truncation is applied to `M`
before substitution. -/
theorem C4_message_verbatim_substring (M : String) :
    M.data <:+: (page M).data :=
  ⟨htmlPre.data, htmlPost.data, ((data_page M).trans (List.append_assoc _ _ _).symm).symm⟩

/-- C5: the renderer is deterministic and pure: any two invocations of
`page` on equal messages yield byte-identical output. -/
theorem C5_deterministic (M₁ M₂ : String) (h : M₁ = M₂) :
    (page M₁).data = (page M₂).data := by
  rw [h]

/-- Witness for C5 at the concrete message of the application. -/
theorem C5_deterministic_witness :
    (page "Hello CGI!!! Welcome to the world of DevOps :)").data =
      (page "Hello CGI!!! Welcome to the world of DevOps :)").data :=
  C5_deterministic _ _ rfl

/-- C6: the renderer is total: every message string yields a page, and on
the empty string it returns the template with an empty substitution. -/
theorem C6_total_and_empty_message :
    (∀ M : String, ∃ html : String, page M = html) ∧
    page "" = htmlPre ++ "" ++ htmlPost ∧
    page "" = htmlPre ++ htmlPost := by
  refine ⟨fun M => ⟨page M, rfl⟩, rfl, ?_⟩
  simp [page]

/-- C7: the endpoint is stateless and idempotent: processing any sequence
of requests leaves the application state unchanged, and the response to a
request is the same whatever sequence of requests preceded it. -/
theorem C7_stateless_idempotent (history₁ history₂ : List Request) (req : Request) :
    (serveAll app (history₁ ++ [req])).1 = app ∧
    (serveAll app (history₁ ++ [req])).2.getLast? =
      (serveAll app (history₂ ++ [req])).2.getLast? ∧
    (serveAll app (history₁ ++ [req])).2.getLast? = some (handleRequest req) := by
  refine ⟨serveAll_fst _ _, ?_, ?_⟩ <;>
    simp [serveAll_snoc, List.getLast?_append_cons, serverStep, handleRequest]

set_option maxRecDepth 8000 in
/-- C8: there are fixed constants `htmlPre` and `htmlPost` with
`page M = htmlPre ++ M ++ htmlPost` for every `M`; `htmlPre` begins with a
newline followed by eight spaces of indentation, so `page M` never begins
with "<html>" and always begins with a newline. -/
theorem C8_leading_newline (M : String) :
    page M = htmlPre ++ M ++ htmlPost ∧
    "\n        ".data <+: htmlPre.data ∧
    ¬ "<html>".data <+: (page M).data ∧
    "\n".data <+: (page M).data := by
  refine ⟨rfl, ?_, ?_, ?_⟩
  · exact ⟨htmlPre.data.drop 9, by decide⟩
  · intro h
    rw [data_page_cons M, show "<html>".data = '<' :: "html>".data from rfl] at h
    exact absurd (List.cons_prefix_cons.mp h).1 (by decide)
  · exact ⟨htmlPre.data.tail ++ (M.data ++ htmlPost.data), (data_page_cons M).symm⟩

/-- C9: the renderer is injective: equal pages come from equal messages. -/
theorem C9_injective (M₁ M₂ : String) (h : page M₁ = page M₂) : M₁ = M₂ := by
  have hd : htmlPre.data ++ (M₁.data ++ htmlPost.data) =
      htmlPre.data ++ (M₂.data ++ htmlPost.data) :=
    (data_page M₁).symm.trans ((congrArg String.data h).trans (data_page M₂))
  exact String.ext (List.append_cancel_right (List.append_cancel_left hd))

/-- Witness for C9 at a concrete message. -/
theorem C9_injective_witness : ("abc" : String) = "abc" :=
  C9_injective "abc" "abc" rfl

set_option maxRecDepth 8000 in
/-- C10: the length of `page M` is the length of `M` plus the fixed
constant 292, the length of the template with the placeholder removed. -/
theorem C10_length_affine (M : String) :
    (page M).length = M.length + (htmlPre.length + htmlPost.length) ∧
    htmlPre.length + htmlPost.length = 292 := by
  constructor
  · simp [page, String.length_append]
    omega
  · decide
